import Mathlib

/-!
Verification of the Clara flow-coordination core against its sources:
the flow state machine (`backend/src/flow_manager.py`, documented in the
backend architecture notes), the agent wake/sleep lifecycle
(`backend/src/agent_state.py` / agent notes), the OTP manager, the signal
mailbox contract, and the browser capture client
(`frontend/components/VideoCapture.tsx`).
-/

namespace Clara

/-- Flow states, from the `FlowState` enum in `flow_manager.py`. -/
inductive FlowState
  | IDLE
  | USER_CLASSIFICATION
  | FACE_RECOGNITION
  | MANUAL_VERIFICATION
  | CREDENTIAL_CHECK
  | FACE_REGISTRATION
  | EMPLOYEE_VERIFIED
  | VISITOR_INFO_COLLECTION
  | VISITOR_FACE_CAPTURE
  | HOST_NOTIFICATION
  | FLOW_END
  deriving DecidableEq, Repr

/-- Per-conversation flow session, from the `FlowSession` dataclass in
`flow_manager.py` (fields not touched by the transitions modelled here,
such as `created_at`, are omitted). -/
structure FlowSession where
  session_id : String
  current_state : FlowState
  user_type : Option String
  verification_attempts : Nat
  deriving DecidableEq, Repr

/-- Fresh session as built by `FlowSession.__init__`. -/
def initSession (sid : String) : FlowSession :=
  { session_id := sid
    current_state := FlowState.IDLE
    user_type := none
    verification_attempts := 0 }

/-- `FlowSession.transition_to`. -/
def transition_to (s : FlowSession) (st : FlowState) : FlowSession :=
  { s with current_state := st }

/-- Record of one posted signal, together with the session's `user_type`
at the moment `post_signal` ran. -/
structure SigLog where
  name : String
  userTypeAtPost : Option String
  deriving DecidableEq, Repr

/-- `handle_user_classification` from `flow_manager.py`: stores the given
`user_type` string unconditionally, then branches.  The
`post_signal("start_face_capture", ...)` call in the employee branch is the
one quoted from `flow_manager.py` in `FLOW_FIX_SUMMARY.md`. -/
def handle_user_classification (s : FlowSession) (user_type : String) :
    FlowSession × List SigLog :=
  let s1 : FlowSession := { s with user_type := some user_type }
  if user_type = "employee" then
    let s2 := transition_to s1 FlowState.FACE_RECOGNITION
    (s2, [⟨"start_face_capture", s2.user_type⟩])
  else if user_type = "visitor" then
    (transition_to s1 FlowState.VISITOR_INFO_COLLECTION, [])
  else
    (transition_to s1 FlowState.USER_CLASSIFICATION, [])

/-- Modelled from the spec: the `flow_manager.py` handler for a capture
result is not under src (only the client retry loop and the spec describe
it).  Per the transition rules: a match moves to `EMPLOYEE_VERIFIED`,
resets the counter and emits `stop_face_capture`; no match with
`verification_attempts < 3` increments and stays; no match at the budget
moves to `MANUAL_VERIFICATION` and emits `stop_face_capture`. -/
def handle_face_result (s : FlowSession) (matched : Bool) :
    FlowSession × List SigLog :=
  if s.current_state = FlowState.FACE_RECOGNITION then
    if matched then
      let s2 : FlowSession :=
        { s with current_state := FlowState.EMPLOYEE_VERIFIED
                 verification_attempts := 0 }
      (s2, [⟨"stop_face_capture", s2.user_type⟩])
    else if s.verification_attempts < 3 then
      ({ s with verification_attempts := s.verification_attempts + 1 }, [])
    else
      let s2 := transition_to s FlowState.MANUAL_VERIFICATION
      (s2, [⟨"stop_face_capture", s2.user_type⟩])
  else (s, [])

/-- Events a flow session consumes. -/
inductive FlowEvent
  | wake
  | classify (u : String)
  | faceResult (matched : Bool)
  | sessionEnd
  deriving DecidableEq, Repr

/-- One dispatch step.  Modelled from the spec where the dispatcher is not
under src: wake moves `Idle` to `Classification`; a classification
utterance is delivered in the `Classification` state
(`handle_user_classification`); a capture result is delivered by the
client callback (`handle_face_result` guards on its own state); session
end resets the session. -/
def flowStep (s : FlowSession) (e : FlowEvent) : FlowSession × List SigLog :=
  match e with
  | FlowEvent.wake =>
    if s.current_state = FlowState.IDLE then
      (transition_to s FlowState.USER_CLASSIFICATION, [])
    else (s, [])
  | FlowEvent.classify u =>
    if s.current_state = FlowState.USER_CLASSIFICATION then
      handle_user_classification s u
    else (s, [])
  | FlowEvent.faceResult m => handle_face_result s m
  | FlowEvent.sessionEnd => (initSession s.session_id, [])

/-- Run a list of events, collecting every posted signal. -/
def flowRun (s : FlowSession) : List FlowEvent → FlowSession × List SigLog
  | [] => (s, [])
  | e :: es =>
    let p := flowStep s e
    let q := flowRun p.1 es
    (q.1, p.2 ++ q.2)

/-! Browser capture client: `VideoCapture.tsx` (`frontend/components`). -/

/-- Client mode, the `mode` state of `VideoCapture`. -/
inductive ClientMode
  | idle
  | employee
  | visitor
  deriving DecidableEq, Repr

/-- The `verification.status` values of `VideoCapture`. -/
inductive VStatus
  | idle
  | scanning
  | verified
  | failed
  | manual_input
  deriving DecidableEq, Repr

/-- Client-side state relevant to `scanFace`: `mode`, `scanningEnabled`,
`verification.status`, `verification.accessGranted`,
`faceScanAttemptsRef.current` and `showManualInput`. -/
structure ClientState where
  mode : ClientMode
  scanningEnabled : Bool
  status : VStatus
  attempts : Nat
  showManualInput : Bool
  accessGranted : Bool
  deriving DecidableEq, Repr

/-- `maxFaceScanAttempts` in `VideoCapture.tsx`. -/
def maxFaceScanAttempts : Nat := 3

/-- Outcome of one `scanFace` round trip, as the code discriminates it:
`data.success && face_result.status == "success"`;
`data.success == false && face_result.status == "manual_input"`;
any other ok response (no match); a thrown fetch / non-ok-response error
(the inner catch); a canvas/blob error before any frame is sent (the
outer catch). -/
inductive ScanOutcome
  | okSuccess
  | okManualInput
  | okNoMatch
  | netError
  | captureError
  deriving DecidableEq, Repr

/-- Result of one `scanFace` call: the new client state, whether a capture
frame was submitted to the backend, and whether a retry `setTimeout` was
scheduled. -/
structure ScanResult where
  state : ClientState
  submitted : Bool
  retryScheduled : Bool
  deriving DecidableEq, Repr

/-- `scanFace` from `VideoCapture.tsx`.  Guards in source order: visitor
mode returns at once; then no video / not enabled-nor-forced / already
verified returns; then a dead camera resets status to `idle` (retrying
later only when forced); otherwise a frame is captured and posted and the
response branches are applied.  `cameraLive` folds the null-video check
and the track-liveness check together. -/
def scanFace (cs : ClientState) (force cameraLive : Bool)
    (outcome : ScanOutcome) : ScanResult :=
  if cs.mode = ClientMode.visitor then
    ⟨cs, false, false⟩
  else if (!cs.scanningEnabled && !force) || cs.status = VStatus.verified then
    ⟨cs, false, false⟩
  else if !cameraLive then
    ⟨{ cs with status := VStatus.idle, accessGranted := false }, false, force⟩
  else
    match outcome with
    | ScanOutcome.okSuccess =>
      ⟨{ cs with attempts := 0
                 status := VStatus.verified
                 accessGranted := true
                 scanningEnabled := false }, true, false⟩
    | ScanOutcome.okManualInput =>
      ⟨{ cs with attempts := maxFaceScanAttempts
                 status := VStatus.manual_input
                 accessGranted := false
                 scanningEnabled := false
                 showManualInput := true }, true, false⟩
    | ScanOutcome.okNoMatch =>
      let a := cs.attempts + 1
      if a < maxFaceScanAttempts then
        ⟨{ cs with attempts := a
                   status := VStatus.failed
                   accessGranted := false }, true, true⟩
      else
        ⟨{ cs with attempts := a
                   status := VStatus.failed
                   accessGranted := false
                   scanningEnabled := false }, true, false⟩
    | ScanOutcome.netError =>
      ⟨{ cs with status := VStatus.failed, accessGranted := false }, true, false⟩
    | ScanOutcome.captureError =>
      ⟨{ cs with status := VStatus.failed, accessGranted := false }, false, false⟩

/-- `setEmployeeMode` from `VideoCapture.tsx`. -/
def setEmployeeMode (cs : ClientState) : ClientState :=
  { cs with attempts := 0
            mode := ClientMode.employee
            scanningEnabled := true
            status := VStatus.idle
            accessGranted := false }

/-- `setVisitorMode` from `VideoCapture.tsx`. -/
def setVisitorMode (cs : ClientState) : ClientState :=
  { cs with attempts := 0
            mode := ClientMode.visitor
            scanningEnabled := false
            status := VStatus.idle
            accessGranted := false }

/-- `setIdleMode` from `VideoCapture.tsx`. -/
def setIdleMode (cs : ClientState) : ClientState :=
  { cs with attempts := 0
            mode := ClientMode.idle
            scanningEnabled := false
            status := VStatus.idle
            accessGranted := false }

/-! Wake lifecycle: `agent_state.py` and the agent notes. -/

/-- `AgentState` from `agent_state.py`: wake flag, last-activity
timestamp, owning session id and language.  Time is modelled as seconds
(`Nat`); `last_activity = none` is Python `None`. -/
structure AgentState where
  is_awake : Bool
  last_activity : Option Nat
  session_id : Option String
  language : String
  deriving DecidableEq, Repr

/-- `auto_sleep_timeout` (seconds). -/
def auto_sleep_timeout : Nat := 60

/-- `AgentState.sleep`: clears the wake flag and the session id. -/
def AgentState.sleep (a : AgentState) : AgentState :=
  { a with is_awake := false, session_id := none }

/-- `AgentState.wake_up`. -/
def AgentState.wake_up (a : AgentState) (sid : String) (now : Nat) :
    AgentState :=
  { a with is_awake := true, session_id := some sid, last_activity := some now }

/-- `AgentState.update_activity`. -/
def AgentState.update_activity (a : AgentState) (now : Nat) : AgentState :=
  { a with last_activity := some now }

/-- `AgentState.check_auto_sleep`: returns whether the agent just slept,
together with the updated agent state.  The idle comparison is the
source's strict `idle_time > self.auto_sleep_timeout`. -/
def AgentState.check_auto_sleep (a : AgentState) (now : Nat) :
    Bool × AgentState :=
  if !a.is_awake then (false, a)
  else
    match a.last_activity with
    | none => (false, a)
    | some t =>
      if now - t > auto_sleep_timeout then (true, a.sleep) else (false, a)

/-- A transient client instruction, from the data model: name, payload
and creation time. -/
structure Signal where
  name : String
  payload : List (String × String)
  createdAt : Nat
  deriving DecidableEq, Repr

/-- Whole-kiosk state seen by the background auto-sleep task: the agent
state, the flow session and the pending signal slot. -/
structure KioskState where
  agent : AgentState
  session : FlowSession
  signal : Option Signal
  deriving DecidableEq, Repr

/-- Modelled from the spec: `clear_session` is not under src; per the
spec it resets the owning flow session to its initial state and clears
any pending signal. -/
def clear_session (k : KioskState) : KioskState :=
  { k with session := initSession k.session.session_id, signal := none }

/-- One iteration of `check_auto_sleep_task` from the agent notes: when
the agent is awake it runs `check_auto_sleep()`, and if that returned
true it consults `agent_state.session_id` — which `sleep()` has already
set to `None` — before calling `clear_session`. -/
def check_auto_sleep_task_tick (k : KioskState) (now : Nat) : KioskState :=
  if k.agent.is_awake then
    let p := k.agent.check_auto_sleep now
    let k2 : KioskState := { k with agent := p.2 }
    if p.1 then
      match p.2.session_id with
      | some _ => clear_session k2
      | none => k2
    else k2
  else k

/-! Wake-word gating: `check_wake_word` / `process_input` from the agent
notes. -/

/-- Python's `needle in hay` substring test, on character lists. -/
def strContainsSub (hay : List Char) (needle : String) : Bool :=
  hay.tails.any (fun t => needle.toList.isPrefixOf t)

/-- Python's `text.lower().strip()`: lowercase every character, then drop
leading and trailing whitespace. -/
def pyLowerStrip (text : String) : List Char :=
  let l := text.toList.map Char.toLower
  ((l.dropWhile Char.isWhitespace).reverse.dropWhile Char.isWhitespace).reverse

/-- `WAKE_WORDS` from the agent notes. -/
def WAKE_WORDS : List String :=
  ["clara", "hey clara", "hi clara", "hello clara",
   "क्लारा", "हे क्लारा", "हाय क्लारा",
   "கிளாரா", "ஹாய் கிளாரா",
   "క్లారా", "హాయ్ క్లారా"]

/-- `check_wake_word`: lowercases and strips the text, then tests
containment of each configured wake phrase. -/
def check_wake_word (text : String) : Bool :=
  let t := pyLowerStrip text
  WAKE_WORDS.any (fun w => strContainsSub t w)

/-- Wake prompts from `MESSAGES` in `messages.py`, with the English
fallback of `get_message`. -/
def get_message_wake_prompt (lang : String) : String :=
  if lang = "hi" then
    "नमस्ते! मैं क्लारा हूं, आपकी वर्चुअल रिसेप्शनिस्ट। मैं आपकी कैसे मदद कर सकती हूं?"
  else if lang = "ta" then
    "வணக்கம்! நான் கிளாரா, உங்கள் மெய்நிகர் வரவேற்பாளர். நான் உங்களுக்கு எப்படி உதவ முடியும்?"
  else if lang = "te" then
    "నమస్కారం! నేను క్లారా, మీ వర్చువల్ రిసెప్షనిస్ట్. నేను మీకు ఎలా సహాయం చేయగలను?"
  else
    "Hello! I\x27m Clara, your virtual receptionist. How may I help you today?"

/-- Reply shape of `process_input`. -/
structure InputResponse where
  should_respond : Bool
  message : Option String
  deriving DecidableEq, Repr

/-- `process_input` from the agent notes.  Language detection (fasttext)
is an external collaborator, passed in as `detect`.  Asleep: accepts only
a wake phrase, waking up, stamping activity and language and returning
the wake prompt; otherwise ignores with no reply.  Awake: stamps
activity, re-detects the language and accepts. -/
def process_input (a : AgentState) (text sid : String) (now : Nat)
    (detect : String → String) : AgentState × InputResponse :=
  if !a.is_awake then
    if check_wake_word text then
      let a1 := a.wake_up sid now
      let lang := detect text
      let a2 : AgentState := { a1 with language := lang }
      (a2, ⟨true, some (get_message_wake_prompt lang)⟩)
    else
      (a, ⟨false, none⟩)
  else
    let a1 := a.update_activity now
    let lang := detect text
    let a2 : AgentState :=
      if lang ≠ a1.language then { a1 with language := lang } else a1
    (a2, ⟨true, none⟩)

/-! OTP management: `OTPManager` from the backend notes. -/

/-- One entry of `otp_store`: the code, its creation time and the failed
attempts recorded against it. -/
structure OTPEntry where
  otp : String
  created_at : Nat
  attempts : Nat
  deriving DecidableEq, Repr

/-- `otp_store`, a phone-keyed dictionary. -/
def OTPStore : Type := String → Option OTPEntry

/-- `del self.otp_store[phone]`. -/
def OTPStore.erase (st : OTPStore) (phone : String) : OTPStore :=
  fun p => if p = phone then none else st p

/-- Write one entry of the store. -/
def OTPStore.insert (st : OTPStore) (phone : String) (e : OTPEntry) :
    OTPStore :=
  fun p => if p = phone then some e else st p

/-- `otp_expiry` (seconds). -/
def otp_expiry : Nat := 300

/-- `OTPManager.verify_otp`: no entry fails; an entry older than the
validity window is deleted and fails; an entry with three or more failed
attempts is deleted and fails; a matching code is deleted and succeeds;
a mismatched code records one more failed attempt and fails. -/
def verify_otp (st : OTPStore) (phone otp : String) (now : Nat) :
    Bool × OTPStore :=
  match st phone with
  | none => (false, st)
  | some stored =>
    let age := now - stored.created_at
    if age > otp_expiry then
      (false, st.erase phone)
    else if stored.attempts ≥ 3 then
      (false, st.erase phone)
    else if stored.otp = otp then
      (true, st.erase phone)
    else
      (false, st.insert phone { stored with attempts := stored.attempts + 1 })

/-! Signal mailbox. -/

/-- Modelled from the spec: the mailbox implementation behind
`/post_signal`, `/get_signal` and `/clear_signal`
(`backend/src/server.py` / `flow_signal.py`) is not under src — only its
polling client and its contract are.  Per the contract, the mailbox is a
single slot per session: `post` overwrites any unread signal, `peek` is
a non-destructive read, `consume` clears the slot. -/
def Mailbox : Type := Option Signal

/-- Modelled from the spec: `post(sessionId, name, payload)` overwrites
any unread signal (last write wins). -/
def Mailbox.post (_m : Mailbox) (name : String)
    (payload : List (String × String)) (now : Nat) : Mailbox :=
  some ⟨name, payload, now⟩

/-- Modelled from the spec: `peek(sessionId)` returns the pending signal
or null without removing it. -/
def Mailbox.peek (m : Mailbox) : Option Signal × Mailbox :=
  (m, m)

/-- Modelled from the spec: `consume(sessionId)` clears the slot. -/
def Mailbox.consume (_m : Mailbox) : Mailbox :=
  none

/-- The value set the spec allows for `userType`. -/
def validUserType (o : Option String) : Prop :=
  o = none ∨ o = some "employee" ∨ o = some "visitor"

/-! Theorems. -/

/-- C4: for every session mailbox, `peek` is non-destructive, `consume`
clears the slot, a second `consume` right after a `consume` is a no-op,
`peek` after `consume` returns null, and `post` overwrites the slot with
the new signal. -/
theorem mailbox_peek_consume_contract :
    ∀ (m : Mailbox) (name : String) (payload : List (String × String))
      (now : Nat),
      (Mailbox.peek m).2 = m ∧
      (Mailbox.peek m).1 = m ∧
      Mailbox.consume (Mailbox.consume m) = Mailbox.consume m ∧
      (Mailbox.peek (Mailbox.consume m)).1 = none ∧
      Mailbox.post m name payload now = some ⟨name, payload, now⟩ :=
  fun _ _ _ _ => ⟨rfl, rfl, rfl, rfl, rfl⟩

/-- C5: on an idle tick past the 60-second threshold the agent does go to
sleep, but the flow session is NOT reset to `Idle` and the pending signal
is NOT cleared: `sleep()` nulls `session_id` before
`check_auto_sleep_task` reads it, so `clear_session` never runs.  Here
the agent slept 61 seconds after its last activity, yet the session stays
in `FACE_RECOGNITION` and the mailbox still holds its signal. -/
theorem auto_sleep_leaves_session_uncleared :
    (check_auto_sleep_task_tick
      ⟨⟨true, some 0, some "room1", "en"⟩,
       ⟨"room1", FlowState.FACE_RECOGNITION, some "employee", 2⟩,
       some ⟨"start_face_capture", [], 0⟩⟩ 61).agent.is_awake = false ∧
    (check_auto_sleep_task_tick
      ⟨⟨true, some 0, some "room1", "en"⟩,
       ⟨"room1", FlowState.FACE_RECOGNITION, some "employee", 2⟩,
       some ⟨"start_face_capture", [], 0⟩⟩ 61).session.current_state
      = FlowState.FACE_RECOGNITION ∧
    (check_auto_sleep_task_tick
      ⟨⟨true, some 0, some "room1", "en"⟩,
       ⟨"room1", FlowState.FACE_RECOGNITION, some "employee", 2⟩,
       some ⟨"start_face_capture", [], 0⟩⟩ 61).session.current_state
      ≠ FlowState.IDLE ∧
    (check_auto_sleep_task_tick
      ⟨⟨true, some 0, some "room1", "en"⟩,
       ⟨"room1", FlowState.FACE_RECOGNITION, some "employee", 2⟩,
       some ⟨"start_face_capture", [], 0⟩⟩ 61).signal
      = some ⟨"start_face_capture", [], 0⟩ := by
  decide

/-- C3 counterexample: a client in face-recognition mode with one
recorded attempt receives a `manual_input` capture result; the counter is
set to `maxFaceScanAttempts = 3`, not reset to 0, on the transition into
manual verification. -/
theorem manual_transition_sets_counter_to_max :
    (scanFace ⟨ClientMode.employee, true, VStatus.scanning, 1, false, false⟩
      false true ScanOutcome.okManualInput).state.status
      = VStatus.manual_input ∧
    (scanFace ⟨ClientMode.employee, true, VStatus.scanning, 1, false, false⟩
      false true ScanOutcome.okManualInput).state.attempts = 3 ∧
    (scanFace ⟨ClientMode.employee, true, VStatus.scanning, 1, false, false⟩
      false true ScanOutcome.okManualInput).state.attempts ≠ 0 := by
  decide

/-- C3 amended: within a face-recognition sojourn the attempt counter
never decreases (given the reachable bound `attempts ≤ 3`); it is reset
to exactly 0 on the transition into the verified state; but on the
transition into manual verification it is set to the maximum (3), not
0. -/
theorem attempts_monotone_and_reset_rules :
    ∀ (cs : ClientState) (force live : Bool) (o : ScanOutcome),
      cs.attempts ≤ maxFaceScanAttempts →
      ((scanFace cs force live o).state.status ≠ VStatus.verified →
        cs.attempts ≤ (scanFace cs force live o).state.attempts) ∧
      ((scanFace cs force live o).submitted = true →
        o = ScanOutcome.okSuccess →
        (scanFace cs force live o).state.attempts = 0 ∧
        (scanFace cs force live o).state.status = VStatus.verified) ∧
      ((scanFace cs force live o).submitted = true →
        o = ScanOutcome.okManualInput →
        (scanFace cs force live o).state.attempts = maxFaceScanAttempts ∧
        (scanFace cs force live o).state.status = VStatus.manual_input) := by
  intro cs force live o hb
  unfold scanFace
  split_ifs <;> cases o <;>
    (try simp_all [maxFaceScanAttempts]) <;> (try split) <;>
    (try simp_all) <;> omega

/-- C3 amended witness: a concrete client at one attempt; a no-match
keeps the counter non-decreasing. -/
theorem attempts_monotone_and_reset_rules_witness :
    (1 : Nat) ≤ maxFaceScanAttempts ∧
    ((scanFace ⟨ClientMode.employee, true, VStatus.scanning, 1, false, false⟩
        false true ScanOutcome.okNoMatch).state.status ≠ VStatus.verified →
      1 ≤ (scanFace ⟨ClientMode.employee, true, VStatus.scanning, 1, false,
        false⟩ false true ScanOutcome.okNoMatch).state.attempts) :=
  ⟨by decide,
   (attempts_monotone_and_reset_rules
     ⟨ClientMode.employee, true, VStatus.scanning, 1, false, false⟩
     false true ScanOutcome.okNoMatch (by decide)).1⟩

/-- C8 counterexample: a network error during a capture attempt (the
inner catch of `scanFace`) leaves the attempt counter unchanged at 0 —
it does not count toward the 3-attempt retry budget as claimed — and no
retry is scheduled. -/
theorem network_error_does_not_count_attempt :
    (scanFace ⟨ClientMode.employee, true, VStatus.idle, 0, false, false⟩
      false true ScanOutcome.netError).state.attempts = 0 ∧
    (scanFace ⟨ClientMode.employee, true, VStatus.idle, 0, false, false⟩
      false true ScanOutcome.netError).state.attempts ≠ 1 ∧
    (scanFace ⟨ClientMode.employee, true, VStatus.idle, 0, false, false⟩
      false true ScanOutcome.netError).submitted = true ∧
    (scanFace ⟨ClientMode.employee, true, VStatus.idle, 0, false, false⟩
      false true ScanOutcome.netError).state.status = VStatus.failed ∧
    (scanFace ⟨ClientMode.employee, true, VStatus.idle, 0, false, false⟩
      false true ScanOutcome.netError).retryScheduled = false := by
  decide

/-- C8 amended: an external-collaborator (network) failure during a
capture attempt is caught, surfacing as a failed status — never a crash
of the session — but it does not increment the retry counter and no
automatic retry is scheduled. -/
theorem network_error_caught_no_increment :
    ∀ (cs : ClientState) (force : Bool),
      cs.mode ≠ ClientMode.visitor →
      (cs.scanningEnabled = true ∨ force = true) →
      cs.status ≠ VStatus.verified →
      (scanFace cs force true ScanOutcome.netError).state.status
        = VStatus.failed ∧
      (scanFace cs force true ScanOutcome.netError).state.attempts
        = cs.attempts ∧
      (scanFace cs force true ScanOutcome.netError).submitted = true ∧
      (scanFace cs force true ScanOutcome.netError).retryScheduled
        = false := by
  intro cs force hm hs hv
  unfold scanFace
  split_ifs <;> simp_all

/-- C8 amended witness: concrete network failure at zero attempts. -/
theorem network_error_caught_no_increment_witness :
    (scanFace ⟨ClientMode.employee, true, VStatus.idle, 0, false, false⟩
      false true ScanOutcome.netError).state.status = VStatus.failed ∧
    (scanFace ⟨ClientMode.employee, true, VStatus.idle, 0, false, false⟩
      false true ScanOutcome.netError).state.attempts = 0 ∧
    (scanFace ⟨ClientMode.employee, true, VStatus.idle, 0, false, false⟩
      false true ScanOutcome.netError).submitted = true ∧
    (scanFace ⟨ClientMode.employee, true, VStatus.idle, 0, false, false⟩
      false true ScanOutcome.netError).retryScheduled = false :=
  network_error_caught_no_increment
    ⟨ClientMode.employee, true, VStatus.idle, 0, false, false⟩
    false (by decide) (Or.inl rfl) (by decide)

/-- Every signal a single dispatch step posts under the name
`start_face_capture` is posted with `user_type` already recorded as
`employee`. -/
theorem flowStep_start_capture_employee (s : FlowSession) (e : FlowEvent) :
    ∀ entry ∈ (flowStep s e).2, entry.name = "start_face_capture" →
      entry.userTypeAtPost = some "employee" := by
  intro entry hmem hname
  cases e with
  | wake =>
    simp only [flowStep] at hmem
    split at hmem <;> simp_all
  | classify u =>
    simp only [flowStep] at hmem
    split at hmem
    · simp only [handle_user_classification] at hmem
      split_ifs at hmem with h1 h2 <;> simp_all [transition_to]
    · simp_all
  | faceResult m =>
    simp only [flowStep, handle_face_result] at hmem
    split_ifs at hmem <;> simp_all [transition_to]
  | sessionEnd =>
    simp [flowStep] at hmem

/-- Trace version of `flowStep_start_capture_employee`. -/
theorem flowRun_start_capture_employee (s : FlowSession)
    (es : List FlowEvent) :
    ∀ entry ∈ (flowRun s es).2, entry.name = "start_face_capture" →
      entry.userTypeAtPost = some "employee" := by
  induction es generalizing s with
  | nil => simp [flowRun]
  | cons e es ih =>
    intro entry hmem hname
    simp only [flowRun, List.mem_append] at hmem
    rcases hmem with h | h
    · exact flowStep_start_capture_employee s e entry h hname
    · exact ih (flowStep s e).1 entry h hname

/-- C1: in every reachable execution, a `start_face_capture` signal is
posted only with the session's `userType` already recorded as
`employee`; and the capture client in visitor mode never submits a
capture frame (and leaves its state untouched). -/
theorem start_face_capture_only_for_employee :
    (∀ (sid : String) (es : List FlowEvent),
      ∀ entry ∈ (flowRun (initSession sid) es).2,
        entry.name = "start_face_capture" →
        entry.userTypeAtPost = some "employee") ∧
    (∀ (cs : ClientState) (force live : Bool) (o : ScanOutcome),
      cs.mode = ClientMode.visitor →
      (scanFace cs force live o).submitted = false ∧
      (scanFace cs force live o).state = cs) := by
  constructor
  · intro sid es
    exact flowRun_start_capture_employee (initSession sid) es
  · intro cs force live o hm
    unfold scanFace
    rw [if_pos hm]
    exact ⟨rfl, rfl⟩

/-- C1 witness: the employee classification run does post exactly one
`start_face_capture`, with `userType = employee` recorded; a concrete
visitor-mode client submits nothing. -/
theorem start_face_capture_only_for_employee_witness :
    (SigLog.mk "start_face_capture" (some "employee")).userTypeAtPost
      = some "employee" ∧
    (scanFace ⟨ClientMode.visitor, false, VStatus.idle, 0, false, false⟩
      true true ScanOutcome.okNoMatch).submitted = false :=
  ⟨start_face_capture_only_for_employee.1 "room"
      [FlowEvent.wake, FlowEvent.classify "employee"]
      ⟨"start_face_capture", some "employee"⟩ (by decide) rfl,
   (start_face_capture_only_for_employee.2
      ⟨ClientMode.visitor, false, VStatus.idle, 0, false, false⟩
      true true ScanOutcome.okNoMatch rfl).1⟩

/-- One dispatch step keeps `verification_attempts` within the budget. -/
theorem flowStep_attempts_le (s : FlowSession) (e : FlowEvent)
    (h : s.verification_attempts ≤ 3) :
    (flowStep s e).1.verification_attempts ≤ 3 := by
  cases e with
  | wake =>
    simp only [flowStep]
    split <;> simp_all [transition_to]
  | classify u =>
    simp only [flowStep, handle_user_classification]
    split <;> (try split_ifs) <;> simp_all [transition_to]
  | faceResult m =>
    cases m <;> simp only [flowStep, handle_face_result] <;>
      split_ifs <;> simp_all [transition_to] <;> omega
  | sessionEnd =>
    simp [flowStep, initSession]

/-- Trace version of `flowStep_attempts_le`. -/
theorem flowRun_attempts_le (s : FlowSession) (es : List FlowEvent)
    (h : s.verification_attempts ≤ 3) :
    (flowRun s es).1.verification_attempts ≤ 3 := by
  induction es generalizing s with
  | nil => simpa [flowRun]
  | cons e es ih => exact ih (flowStep s e).1 (flowStep_attempts_le s e h)

/-- C2: in the face-recognition state a no-match result with
`verification_attempts < 3` increments the counter by one and stays in
`FACE_RECOGNITION` with no signal; a no-match at the budget moves to
`MANUAL_VERIFICATION` and emits `stop_face_capture`; and on every
reachable execution the counter never exceeds 3. -/
theorem face_retry_policy_bounded :
    (∀ (s : FlowSession),
      s.current_state = FlowState.FACE_RECOGNITION →
      (s.verification_attempts < 3 →
        (handle_face_result s false).1.current_state
          = FlowState.FACE_RECOGNITION ∧
        (handle_face_result s false).1.verification_attempts
          = s.verification_attempts + 1 ∧
        (handle_face_result s false).2 = []) ∧
      (s.verification_attempts ≥ 3 →
        (handle_face_result s false).1.current_state
          = FlowState.MANUAL_VERIFICATION ∧
        (handle_face_result s false).1.verification_attempts
          = s.verification_attempts ∧
        (handle_face_result s false).2
          = [⟨"stop_face_capture", s.user_type⟩])) ∧
    (∀ (sid : String) (es : List FlowEvent),
      (flowRun (initSession sid) es).1.verification_attempts ≤ 3) := by
  constructor
  · intro s hst
    constructor
    · intro hlt
      simp only [handle_face_result]
      rw [if_pos hst, if_neg (by simp), if_pos hlt]
      exact ⟨hst, rfl, rfl⟩
    · intro hge
      simp only [handle_face_result]
      rw [if_pos hst, if_neg (by simp), if_neg (by omega)]
      exact ⟨rfl, rfl, rfl⟩
  · intro sid es
    exact flowRun_attempts_le (initSession sid) es (by simp [initSession])

/-- C2 witness: a concrete face-recognition session at two attempts
retries on no match; the employee run with three no-matches ends at the
budget. -/
theorem face_retry_policy_bounded_witness :
    (handle_face_result ⟨"room", FlowState.FACE_RECOGNITION,
      some "employee", 2⟩ false).1.verification_attempts = 3 ∧
    (flowRun (initSession "room")
      [FlowEvent.wake, FlowEvent.classify "employee",
       FlowEvent.faceResult false, FlowEvent.faceResult false,
       FlowEvent.faceResult false]).1.verification_attempts ≤ 3 :=
  ⟨((face_retry_policy_bounded.1
      ⟨"room", FlowState.FACE_RECOGNITION, some "employee", 2⟩ rfl).1
      (by decide)).2.1,
   face_retry_policy_bounded.2 "room"
      [FlowEvent.wake, FlowEvent.classify "employee",
       FlowEvent.faceResult false, FlowEvent.faceResult false,
       FlowEvent.faceResult false]⟩

/-- One dispatch step keeps `user_type` in the allowed set, provided a
classification event carries `employee` or `visitor`. -/
theorem flowStep_validUserType (s : FlowSession) (e : FlowEvent)
    (hs : validUserType s.user_type)
    (he : ∀ u, e = FlowEvent.classify u → u = "employee" ∨ u = "visitor") :
    validUserType (flowStep s e).1.user_type := by
  cases e with
  | wake =>
    simp only [flowStep]
    split <;> simpa [transition_to]
  | classify u =>
    simp only [flowStep]
    split
    · rcases he u rfl with h | h <;> subst h <;>
        simp [handle_user_classification, validUserType, transition_to]
    · exact hs
  | faceResult m =>
    simp only [flowStep, handle_face_result]
    split_ifs <;> simpa [transition_to]
  | sessionEnd =>
    simp [flowStep, initSession, validUserType]

/-- Trace version of `flowStep_validUserType`. -/
theorem flowRun_validUserType (s : FlowSession) (es : List FlowEvent)
    (hs : validUserType s.user_type)
    (hres : ∀ u, FlowEvent.classify u ∈ es →
      u = "employee" ∨ u = "visitor") :
    validUserType (flowRun s es).1.user_type := by
  induction es generalizing s with
  | nil => simpa [flowRun]
  | cons e es ih =>
    exact ih (flowStep s e).1
      (flowStep_validUserType s e hs
        (fun u hu => hres u (hu ▸ List.mem_cons_self e es)))
      (fun u hu => hres u (List.mem_cons_of_mem e hu))

/-- Once the session has left `Idle`/`Classification`, a non-end event
neither changes `user_type` nor re-enters those states. -/
theorem flowStep_userType_frozen (s : FlowSession) (e : FlowEvent)
    (h1 : s.current_state ≠ FlowState.IDLE)
    (h2 : s.current_state ≠ FlowState.USER_CLASSIFICATION)
    (he : e ≠ FlowEvent.sessionEnd) :
    (flowStep s e).1.user_type = s.user_type ∧
    (flowStep s e).1.current_state ≠ FlowState.IDLE ∧
    (flowStep s e).1.current_state ≠ FlowState.USER_CLASSIFICATION := by
  cases e with
  | wake =>
    simp only [flowStep]
    rw [if_neg h1]
    exact ⟨rfl, h1, h2⟩
  | classify u =>
    simp only [flowStep]
    rw [if_neg h2]
    exact ⟨rfl, h1, h2⟩
  | faceResult m =>
    simp only [flowStep, handle_face_result]
    split_ifs <;> simp_all [transition_to]
  | sessionEnd =>
    exact absurd rfl he

/-- Trace version of `flowStep_userType_frozen`. -/
theorem flowRun_userType_frozen (s : FlowSession) (v : String)
    (es : List FlowEvent) (h0 : s.user_type = some v)
    (h1 : s.current_state ≠ FlowState.IDLE)
    (h2 : s.current_state ≠ FlowState.USER_CLASSIFICATION)
    (hne : FlowEvent.sessionEnd ∉ es) :
    (flowRun s es).1.user_type = some v := by
  induction es generalizing s with
  | nil => simpa [flowRun]
  | cons e es ih =>
    have hstep := flowStep_userType_frozen s e h1 h2
      (fun h => hne (h ▸ List.mem_cons_self e es))
    exact ih (flowStep s e).1 (hstep.1.trans h0) hstep.2.1 hstep.2.2
      (fun h => hne (List.mem_cons_of_mem e h))

/-- C9 counterexample: classifying an utterance that is neither
`employee` nor `visitor` stores the raw string in `userType`, which then
holds a value outside {unset, employee, visitor}. -/
theorem classification_stores_raw_input :
    (flowRun (initSession "room")
      [FlowEvent.wake, FlowEvent.classify "unknown"]).1.user_type
      = some "unknown" ∧
    (flowRun (initSession "room")
      [FlowEvent.wake, FlowEvent.classify "unknown"]).1.user_type ≠ none ∧
    (flowRun (initSession "room")
      [FlowEvent.wake, FlowEvent.classify "unknown"]).1.user_type
      ≠ some "employee" ∧
    (flowRun (initSession "room")
      [FlowEvent.wake, FlowEvent.classify "unknown"]).1.user_type
      ≠ some "visitor" := by
  decide

/-- C9 amended: `handle_user_classification` stores the raw
classification input, so `userType` is only guaranteed the values the
classifier supplies; when classification payloads are restricted to
`employee`/`visitor`, `userType` only ever holds unset, employee or
visitor; once set with the session out of `Idle`/`Classification` it
never changes under non-end events; and a session end resets it to
unset. -/
theorem userType_restricted_invariant :
    (∀ (sid : String) (es : List FlowEvent),
      (∀ u, FlowEvent.classify u ∈ es →
        u = "employee" ∨ u = "visitor") →
      validUserType (flowRun (initSession sid) es).1.user_type) ∧
    (∀ (s : FlowSession) (v : String) (es : List FlowEvent),
      s.user_type = some v →
      s.current_state ≠ FlowState.IDLE →
      s.current_state ≠ FlowState.USER_CLASSIFICATION →
      FlowEvent.sessionEnd ∉ es →
      (flowRun s es).1.user_type = some v) ∧
    (∀ s : FlowSession,
      (flowStep s FlowEvent.sessionEnd).1.user_type = none) :=
  ⟨fun sid es hres =>
    flowRun_validUserType (initSession sid) es (Or.inl rfl) hres,
   fun s v es h0 h1 h2 hne => flowRun_userType_frozen s v es h0 h1 h2 hne,
   fun _ => rfl⟩

/-- C9 amended witness: the employee run keeps `userType` in the allowed
set, and further face results leave it fixed at `employee`. -/
theorem userType_restricted_invariant_witness :
    validUserType (flowRun (initSession "room")
      [FlowEvent.wake, FlowEvent.classify "employee"]).1.user_type ∧
    (flowRun ⟨"room", FlowState.FACE_RECOGNITION, some "employee", 0⟩
      [FlowEvent.faceResult false, FlowEvent.faceResult true]).1.user_type
      = some "employee" :=
  ⟨userType_restricted_invariant.1 "room"
      [FlowEvent.wake, FlowEvent.classify "employee"]
      (by
        intro u hu
        simp at hu
        exact Or.inl hu),
   userType_restricted_invariant.2.1
      ⟨"room", FlowState.FACE_RECOGNITION, some "employee", 0⟩ "employee"
      [FlowEvent.faceResult false, FlowEvent.faceResult true]
      rfl (by decide) (by decide) (by decide)⟩

/-- The executable substring test agrees with list containment. -/
theorem strContainsSub_iff (hay : List Char) (needle : String) :
    strContainsSub hay needle = true ↔ needle.toList <:+: hay := by
  unfold strContainsSub
  rw [List.any_eq_true]
  constructor
  · rintro ⟨t, ht, hp⟩
    exact List.infix_iff_prefix_suffix.mpr
      ⟨t, List.isPrefixOf_iff_prefix.mp hp, (List.mem_tails t hay).mp ht⟩
  · intro h
    rcases List.infix_iff_prefix_suffix.mp h with ⟨t, hp, hs⟩
    exact ⟨t, (List.mem_tails t hay).mpr hs,
      List.isPrefixOf_iff_prefix.mpr hp⟩

/-- `check_wake_word` accepts exactly the texts whose lowercased,
stripped form contains a configured wake phrase. -/
theorem check_wake_word_iff (text : String) :
    check_wake_word text = true ↔
      ∃ w ∈ WAKE_WORDS, w.toList <:+: pyLowerStrip text := by
  unfold check_wake_word
  simp only [List.any_eq_true, strContainsSub_iff]

/-- C6: while asleep, an utterance is accepted iff its lowercased,
stripped text contains a configured wake phrase; on a match the agent
wakes, `last_activity` is reset to now and the wake acknowledgement for
the detected language is returned; a non-match is ignored with no reply
and no state change; while awake every utterance is accepted and stamps
`last_activity`. -/
theorem wake_gating_spec :
    ∀ (a : AgentState) (text sid : String) (now : Nat)
      (detect : String → String),
      (a.is_awake = false →
        ((process_input a text sid now detect).2.should_respond = true ↔
          ∃ w ∈ WAKE_WORDS, w.toList <:+: pyLowerStrip text) ∧
        (check_wake_word text = true →
          (process_input a text sid now detect).1.is_awake = true ∧
          (process_input a text sid now detect).1.last_activity
            = some now ∧
          (process_input a text sid now detect).2.message
            = some (get_message_wake_prompt (detect text))) ∧
        (check_wake_word text = false →
          (process_input a text sid now detect).1 = a ∧
          (process_input a text sid now detect).2 = ⟨false, none⟩)) ∧
      (a.is_awake = true →
        (process_input a text sid now detect).2.should_respond = true ∧
        (process_input a text sid now detect).1.last_activity
          = some now) := by
  intro a text sid now detect
  constructor
  · intro hasleep
    refine ⟨?_, ?_, ?_⟩
    · rw [← check_wake_word_iff]
      by_cases h : check_wake_word text = true <;>
        simp [process_input, hasleep, h]
    · intro hcw
      simp [process_input, hasleep, hcw, AgentState.wake_up]
    · intro hcw
      simp [process_input, hasleep, hcw]
  · intro hawake
    constructor
    · simp only [process_input, hawake, Bool.not_true]
      rw [if_neg (by simp)]
    · simp only [process_input, hawake, Bool.not_true]
      rw [if_neg (by simp)]
      split <;> rfl

/-- C6 witness: a concrete asleep agent hearing the wake phrase wakes
up, stamps its activity and replies with the wake prompt. -/
theorem wake_gating_spec_witness :
    (process_input ⟨false, none, none, "en"⟩ "hey clara" "room" 5
      (fun _ => "en")).1.is_awake = true ∧
    (process_input ⟨false, none, none, "en"⟩ "hey clara" "room" 5
      (fun _ => "en")).1.last_activity = some 5 ∧
    (process_input ⟨false, none, none, "en"⟩ "hey clara" "room" 5
      (fun _ => "en")).2.message = some (get_message_wake_prompt "en") :=
  ((wake_gating_spec ⟨false, none, none, "en"⟩ "hey clara" "room" 5
    (fun _ => "en")).1 rfl).2.1 (by decide)

/-- Unfolding `verify_otp` when no entry is stored. -/
theorem verify_otp_none (st : OTPStore) (phone otp : String) (now : Nat)
    (hsp : st phone = none) :
    verify_otp st phone otp now = (false, st) := by
  unfold verify_otp
  rw [hsp]

/-- Unfolding `verify_otp` on a stored entry. -/
theorem verify_otp_some (st : OTPStore) (phone otp : String) (now : Nat)
    (e : OTPEntry) (hsp : st phone = some e) :
    verify_otp st phone otp now =
      (if now - e.created_at > otp_expiry then (false, st.erase phone)
       else if e.attempts ≥ 3 then (false, st.erase phone)
       else if e.otp = otp then (true, st.erase phone)
       else (false,
         st.insert phone { e with attempts := e.attempts + 1 })) := by
  unfold verify_otp
  rw [hsp]

/-- C7: `verify_otp` returns true iff an OTP was issued for the phone,
its age is within the 300-second window, fewer than 3 failed attempts
are recorded and the submitted code matches; an expired entry and an
attempt-exhausted entry are both discarded with a plain false result. -/
theorem verify_otp_spec :
    ∀ (st : OTPStore) (phone otp : String) (now : Nat),
      ((verify_otp st phone otp now).1 = true ↔
        ∃ e : OTPEntry, st phone = some e ∧
          now - e.created_at ≤ otp_expiry ∧ e.attempts < 3 ∧
          e.otp = otp) ∧
      (∀ e : OTPEntry, st phone = some e →
        now - e.created_at > otp_expiry →
        (verify_otp st phone otp now).1 = false ∧
        (verify_otp st phone otp now).2 phone = none) ∧
      (∀ e : OTPEntry, st phone = some e →
        now - e.created_at ≤ otp_expiry → e.attempts ≥ 3 →
        (verify_otp st phone otp now).1 = false ∧
        (verify_otp st phone otp now).2 phone = none) := by
  intro st phone otp now
  refine ⟨⟨?_, ?_⟩, ?_, ?_⟩
  · intro h
    cases hsp : st phone with
    | none => rw [verify_otp_none st phone otp now hsp] at h; simp at h
    | some e =>
      rw [verify_otp_some st phone otp now e hsp] at h
      split_ifs at h with h1 h2 h3
      exact ⟨e, rfl, by omega, by omega, h3⟩
  · rintro ⟨e, hsp, h1, h2, h3⟩
    rw [verify_otp_some st phone otp now e hsp]
    rw [if_neg (by omega), if_neg (by omega), if_pos h3]
  · intro e hsp hexp
    rw [verify_otp_some st phone otp now e hsp, if_pos hexp]
    exact ⟨rfl, by simp [OTPStore.erase]⟩
  · intro e hsp hage hatt
    rw [verify_otp_some st phone otp now e hsp, if_neg (by omega),
      if_pos hatt]
    exact ⟨rfl, by simp [OTPStore.erase]⟩

/-- C7 witness: an entry issued at time 0 checked at time 400 is past
the window; verification fails and the entry is discarded. -/
theorem verify_otp_spec_witness :
    (verify_otp (fun p => if p = "+1999" then
        some ⟨"654321", 0, 0⟩ else none) "+1999" "654321" 400).1
      = false ∧
    (verify_otp (fun p => if p = "+1999" then
        some ⟨"654321", 0, 0⟩ else none) "+1999" "654321" 400).2 "+1999"
      = none :=
  (verify_otp_spec (fun p => if p = "+1999" then
      some ⟨"654321", 0, 0⟩ else none) "+1999" "654321" 400).2.1
    ⟨"654321", 0, 0⟩ (by decide) (by decide)

/-- C10: a successful `verify_otp` deletes the stored entry, so an
immediate second verification with the same phone and the same code
returns false: every issued code is single-use. -/
theorem otp_single_use :
    ∀ (st : OTPStore) (phone otp : String) (now now2 : Nat),
      (verify_otp st phone otp now).1 = true →
      (verify_otp st phone otp now).2 phone = none ∧
      (verify_otp ((verify_otp st phone otp now).2) phone otp now2).1
        = false := by
  intro st phone otp now now2 h
  have hdel : (verify_otp st phone otp now).2 phone = none := by
    cases hsp : st phone with
    | none => rw [verify_otp_none st phone otp now hsp] at h; simp at h
    | some e =>
      rw [verify_otp_some st phone otp now e hsp] at h ⊢
      split_ifs at h ⊢ with h1 h2 h3
      simp [OTPStore.erase]
  refine ⟨hdel, ?_⟩
  rw [verify_otp_none _ phone otp now2 hdel]

/-- C10 witness: a fresh valid code verifies once and then fails on the
immediate retry. -/
theorem otp_single_use_witness :
    (verify_otp (fun p => if p = "+1555" then
        some ⟨"123456", 0, 0⟩ else none) "+1555" "123456" 10).1 = true ∧
    (verify_otp ((verify_otp (fun p => if p = "+1555" then
        some ⟨"123456", 0, 0⟩ else none) "+1555" "123456" 10).2)
      "+1555" "123456" 20).1 = false :=
  ⟨by decide,
   (otp_single_use (fun p => if p = "+1555" then
      some ⟨"123456", 0, 0⟩ else none) "+1555" "123456" 10 20
      (by decide)).2⟩

end Clara
